import Mathlib

/-!
Shallow embedding of `src/react-code-standard/src/ReactBasics.tsx` (and its
near-duplicate copy `src/unnamed/part_000`, the `react-basics.tsx` module
mounted by the bootstrap file).  TypeScript `undefined` is modelled by
`Option`, JS arrays by `List`, and the JSX output of a render by a list of
`Node` values (`none` models a component returning `null`).
-/

namespace ReactBasics

/-- `interface IFarms` — a farm record with a name, a numeric id and an
optional location. -/
structure Farm where
  name : String
  id : Int
  location : Option String
deriving DecidableEq

/-- `interface Props` — `footerText` is required but may be `undefined`
(`Option String`); `show` is optional (`Option Bool`; the component applies
the default `true` when it is absent). -/
structure Props where
  label : String
  url : String
  footerText : Option String
  «show» : Option Bool
deriving DecidableEq

/-- `azureFunctionCall` — the mocked remote call.  It ignores its argument
(apart from logging it) and resolves to the fixed one-element list
`[{ name: 'farm2', id: 2 }]`; it never resolves to `undefined`. -/
def azureFunctionCall (_url : String) : Option (List Farm) :=
  some [{ name := "farm2", id := 2, location := none }]

/-- `isNonEmptyString` — `typeof str === 'string' && str.length > 0`. -/
def isNonEmptyString (str : Option String) : Bool :=
  match str with
  | some s => s.length > 0
  | none => false

/-- `getFooterText` — `isNonEmptyString(footerText) ? footerText : 'no footer'`.
The TS type guard narrows `footerText` to `string` in the then-branch, which
the `Option.getD` realises (its default is never used there). -/
def getFooterText (footerText : Option String) : String :=
  if isNonEmptyString footerText then footerText.getD "no footer" else "no footer"

/-- One rendered JSX node; the component only emits `<p>` paragraphs. -/
inductive Node where
  | p (text : String)
deriving DecidableEq

/-- The component's return value given its props and the current `farms`
state: `null` (here `none`) when `show` is `false`, otherwise one paragraph
per farm holding the farm's name followed by the footer paragraph. -/
def render (props : Props) (farms : List Farm) : Option (List Node) :=
  if props.«show».getD true then
    some (farms.map (fun farm => Node.p farm.name) ++ [Node.p (getFooterText props.footerText)])
  else
    none

/-- `useState<IFarms[]>([])` — the initial value of the `farms` state. -/
def initialFarms : List Farm := []

/-- The static batch assigned by the named mount effect `fetchFarms`:
`const results = [{ name: 'farm1', id: 1 }]`. -/
def fetchFarmsResults : List Farm :=
  [{ name := "farm1", id := 1, location := none }]

/-- The JS value held by (or passed to) the `farms` state setter, before the
TS type is trusted: either `undefined` or an array of farms. -/
inductive FarmsVal where
  | undef
  | list (farms : List Farm)
deriving DecidableEq

/-- The JS nullish-coalescing operator `??` restricted to farm-array values:
keeps a defined array and substitutes the default for `undefined`. -/
def coalesce (v : FarmsVal) (d : FarmsVal) : FarmsVal :=
  match v with
  | .undef => d
  | .list farms => .list farms

/-- A `Promise<IFarms[] | undefined>` resolution seen as a JS value. -/
def jsOfOption : Option (List Farm) → FarmsVal
  | none => .undef
  | some farms => .list farms

/-- The value `fetchImportantData` stores, as a function of what the remote
call resolved to: `const importantData = (await azureFunctionCall(url)) ?? []`
followed by `setFarms(importantData)`. -/
def fetchImportantDataVal (callResult : Option (List Farm)) : FarmsVal :=
  coalesce (jsOfOption callResult) (.list [])

/-- `fetchImportantData(url)` — the state value it ends up storing. -/
def fetchImportantData (url : String) : FarmsVal :=
  fetchImportantDataVal (azureFunctionCall url)

/-- One update of the `farms` state: either the named mount effect
`fetchFarms` (empty dependency array) or the `[url]` effect running
`fetchImportantData` (it runs on mount and again on every `url` change). -/
inductive FarmsUpdate where
  | mountFetch
  | urlFetch (url : String)

/-- Applying one effect-driven update to the current `farms` value.  Both
updates ignore the previous value: the state is replaced wholesale. -/
def applyUpdate (_v : FarmsVal) (u : FarmsUpdate) : FarmsVal :=
  match u with
  | .mountFetch => .list fetchFarmsResults
  | .urlFetch url => fetchImportantData url

/-- The `farms` value after a sequence of updates starting from the
`useState` initial value. -/
def runUpdates (updates : List FarmsUpdate) : FarmsVal :=
  updates.foldl applyUpdate (.list initialFarms)

/-- The values stored into `farms` during mount, in effect order: both
`useEffect` hooks fire after the first render, `fetchFarms` first and the
`[url]` effect second. -/
def mountSets (url : String) : List FarmsVal :=
  [.list fetchFarmsResults, fetchImportantData url]

/-- Whether a JS value is a defined array (so that `.map` over it is
well-defined in the render). -/
def isList : FarmsVal → Bool
  | .undef => false
  | .list _ => true

end ReactBasics

namespace Part000

/-!
`src/unnamed/part_000` is the `react-basics.tsx` module imported by the
bootstrap file; it declares interfaces `IFarms` and `Props` identical to the
ones above, so this namespace reuses `ReactBasics.Farm` / `ReactBasics.Props`
and re-embeds only the functions the file redefines.
-/

/-- `azureFunctionCall` in part_000 — same mock, same fixed result. -/
def azureFunctionCall (_url : String) : Option (List ReactBasics.Farm) :=
  some [{ name := "farm2", id := 2, location := none }]

/-- `isNonEmptyString` in part_000 — identical body. -/
def isNonEmptyString (str : Option String) : Bool :=
  match str with
  | some s => s.length > 0
  | none => false

/-- `getFooterText` in part_000 — identical body. -/
def getFooterText (footerText : Option String) : String :=
  if isNonEmptyString footerText then footerText.getD "no footer" else "no footer"

/-- A rendered JSX node of part_000: keyed paragraphs, a button, and the
(unkeyed) footer paragraph. -/
inductive Node where
  | p (key : Option String) (text : String)
  | button (btype : String) (text : String)
deriving DecidableEq

/-- The part_000 component's return value: `null` when `show` is `false`,
otherwise one keyed paragraph per farm (`key = react-basics-${index}`), the
`Click me` button, then the footer paragraph. -/
def render (props : ReactBasics.Props) (farms : List ReactBasics.Farm) : Option (List Node) :=
  if props.«show».getD true then
    some ((farms.enum.map (fun fi =>
        Node.p (some ("react-basics-" ++ toString fi.1)) fi.2.name))
      ++ [Node.button "button" "Click me", Node.p none (getFooterText props.footerText)])
  else
    none

end Part000

/-! ## Helper lemmas -/

theorem render_of_shown (props : ReactBasics.Props) (farms : List ReactBasics.Farm)
    (h : props.«show».getD true = true) :
    ReactBasics.render props farms =
      some (farms.map (fun farm => ReactBasics.Node.p farm.name) ++
        [ReactBasics.Node.p (ReactBasics.getFooterText props.footerText)]) := by
  simp [ReactBasics.render, h]

theorem isList_applyUpdate (v : ReactBasics.FarmsVal) (u : ReactBasics.FarmsUpdate) :
    ReactBasics.isList (ReactBasics.applyUpdate v u) = true := by
  cases u <;> rfl

theorem isList_foldl (updates : List ReactBasics.FarmsUpdate) :
    ∀ v : ReactBasics.FarmsVal, ReactBasics.isList v = true →
      ReactBasics.isList (updates.foldl ReactBasics.applyUpdate v) = true := by
  induction updates with
  | nil => intro v h; exact h
  | cons u us ih => intro v _; exact ih _ (isList_applyUpdate v u)

/-! ## Claim theorems -/

/-- C1: with `show` true or omitted, the rendered footer paragraph is exactly
the provided `footerText` when it is a string of positive length, and the
fixed placeholder `"no footer"` when it is `undefined` or empty; equivalently
`getFooterText` returns `footerText` when `isNonEmptyString footerText` holds
and `"no footer"` otherwise. -/
theorem footer_text_spec (props : ReactBasics.Props) (farms : List ReactBasics.Farm)
    (h : props.«show».getD true = true) :
    (∀ s : String, props.footerText = some s → 0 < s.length →
      ReactBasics.render props farms =
        some (farms.map (fun farm => ReactBasics.Node.p farm.name) ++
          [ReactBasics.Node.p s])) ∧
    ((props.footerText = none ∨ props.footerText = some "") →
      ReactBasics.render props farms =
        some (farms.map (fun farm => ReactBasics.Node.p farm.name) ++
          [ReactBasics.Node.p "no footer"])) ∧
    (ReactBasics.isNonEmptyString props.footerText = true →
      some (ReactBasics.getFooterText props.footerText) = props.footerText) ∧
    (ReactBasics.isNonEmptyString props.footerText = false →
      ReactBasics.getFooterText props.footerText = "no footer") := by
  refine ⟨?_, ?_, ?_, ?_⟩
  · intro s hs hpos
    rw [render_of_shown props farms h]
    simp [ReactBasics.getFooterText, ReactBasics.isNonEmptyString, hs, hpos]
  · rintro (hft | hft) <;>
      rw [render_of_shown props farms h] <;>
      simp [ReactBasics.getFooterText, ReactBasics.isNonEmptyString, hft]
  · intro hne
    cases hft : props.footerText with
    | none => rw [hft] at hne; simp [ReactBasics.isNonEmptyString] at hne
    | some s => rw [hft] at hne; simp [ReactBasics.getFooterText, hne]
  · intro hne
    simp [ReactBasics.getFooterText, hne]

/-- C1 witness: concrete non-empty footer text is rendered verbatim. -/
theorem footer_text_spec_witness :
    ReactBasics.render ⟨"l", "u", some "hi", none⟩ [⟨"a", 1, none⟩] =
      some [ReactBasics.Node.p "a", ReactBasics.Node.p "hi"] :=
  (footer_text_spec ⟨"l", "u", some "hi", none⟩ [⟨"a", 1, none⟩] rfl).1 "hi" rfl
    (by decide)

/-- C2: the component returns `null` when the `show` prop is `false`, and
renders the farm paragraphs plus footer when `show` is `true` or omitted
(the optional prop defaults to shown). -/
theorem show_flag_spec (props : ReactBasics.Props) (farms : List ReactBasics.Farm) :
    (props.«show» = some false → ReactBasics.render props farms = none) ∧
    ((props.«show» = some true ∨ props.«show» = none) →
      ReactBasics.render props farms =
        some (farms.map (fun farm => ReactBasics.Node.p farm.name) ++
          [ReactBasics.Node.p (ReactBasics.getFooterText props.footerText)])) := by
  constructor
  · intro hs
    simp [ReactBasics.render, hs]
  · rintro (hs | hs) <;> exact render_of_shown props farms (by rw [hs]; rfl)

/-- C2 witness: `show = false` yields `null`; omitted `show` renders. -/
theorem show_flag_spec_witness :
    ReactBasics.render ⟨"l", "u", none, some false⟩ [⟨"a", 1, none⟩] = none ∧
    ReactBasics.render ⟨"l", "u", none, none⟩ [] =
      some [ReactBasics.Node.p "no footer"] :=
  ⟨(show_flag_spec ⟨"l", "u", none, some false⟩ [⟨"a", 1, none⟩]).1 rfl,
   (show_flag_spec ⟨"l", "u", none, none⟩ []).2 (Or.inr rfl)⟩

/-- C3: after `fetchImportantData url` runs, the `farms` state equals exactly
the batch returned by `azureFunctionCall url` (with `undefined` replaced by
the empty list), regardless of the previous value — the list is replaced
wholesale — and rendering that state displays exactly that batch. -/
theorem fetch_replaces_state (url : String) (prev : ReactBasics.FarmsVal) :
    ReactBasics.applyUpdate prev (.urlFetch url) =
      .list ((ReactBasics.azureFunctionCall url).getD []) ∧
    ReactBasics.fetchImportantData url =
      .list ((ReactBasics.azureFunctionCall url).getD []) ∧
    ∀ props : ReactBasics.Props, props.«show».getD true = true →
      ReactBasics.render props ((ReactBasics.azureFunctionCall url).getD []) =
        some (((ReactBasics.azureFunctionCall url).getD []).map
            (fun farm => ReactBasics.Node.p farm.name) ++
          [ReactBasics.Node.p (ReactBasics.getFooterText props.footerText)]) :=
  ⟨rfl, rfl, fun props h => render_of_shown props _ h⟩

/-- C3 witness: a concrete fetch replaces a concrete previous state. -/
theorem fetch_replaces_state_witness :
    ReactBasics.applyUpdate (.list [⟨"old", 7, none⟩]) (.urlFetch "www.google.com") =
      .list [⟨"farm2", 2, none⟩] ∧
    ReactBasics.render ⟨"l", "u", none, none⟩ [⟨"farm2", 2, none⟩] =
      some [ReactBasics.Node.p "farm2", ReactBasics.Node.p "no footer"] :=
  ⟨(fetch_replaces_state "www.google.com" (.list [⟨"old", 7, none⟩])).1,
   (fetch_replaces_state "www.google.com" (.list [⟨"old", 7, none⟩])).2.2
     ⟨"l", "u", none, none⟩ rfl⟩

/-- C4: when the remote call resolves to `undefined`, the nullish-coalescing
guard in `fetchImportantData` makes it store the empty list (never
`undefined`, never the previous value, never a failure). -/
theorem undefined_result_defaults_empty (callResult : Option (List ReactBasics.Farm))
    (h : callResult = none) :
    ReactBasics.fetchImportantDataVal callResult = .list [] := by
  subst h; rfl

/-- C4 witness: the guard evaluated at the `undefined` result. -/
theorem undefined_result_defaults_empty_witness :
    ReactBasics.fetchImportantDataVal none = .list [] :=
  undefined_result_defaults_empty none rfl

/-- C5: `azureFunctionCall` always resolves to the same fixed one-element
list `[{ name: 'farm2', id: 2 }]`; its result is never `undefined` and does
not depend on the url argument. -/
theorem azure_function_call_constant (url url' : String) :
    ReactBasics.azureFunctionCall url =
      some [{ name := "farm2", id := 2, location := none }] ∧
    (ReactBasics.azureFunctionCall url).isSome = true ∧
    ReactBasics.azureFunctionCall url = ReactBasics.azureFunctionCall url' :=
  ⟨rfl, rfl, rfl⟩

/-- C6 counterexample: on mount the `farms` state is stored into twice, not
exactly once — the `fetchFarms` effect and the `[url]` effect both fire after
the first render (here at the bootstrap url). -/
theorem mount_sets_count_cex :
    (ReactBasics.mountSets "www.google.com").length = 2 ∧
    ReactBasics.mountSets "www.google.com" =
      [.list [⟨"farm1", 1, none⟩], .list [⟨"farm2", 2, none⟩]] :=
  ⟨rfl, rfl⟩

/-- C6 amended: the state initializes to the empty list; on mount it is set
twice — first by `fetchFarms` to the static batch, then by the `[url]` effect
to the fetch result — and every url change triggers a fetch that replaces the
state with that url's fetch result. -/
theorem mount_lifecycle_amended (url : String) (prev : ReactBasics.FarmsVal) :
    ReactBasics.initialFarms = [] ∧
    ReactBasics.mountSets url =
      [.list ReactBasics.fetchFarmsResults,
       .list ((ReactBasics.azureFunctionCall url).getD [])] ∧
    ReactBasics.applyUpdate prev (.urlFetch url) =
      .list ((ReactBasics.azureFunctionCall url).getD []) :=
  ⟨rfl, rfl, rfl⟩

/-- C7: with `show` true the output is exactly one paragraph per farm, in
list order, holding the farm's name, followed by the footer; and the output
depends on the farms only through their names (id and location are not
displayed). -/
theorem farm_paragraphs_spec (props : ReactBasics.Props) (farms : List ReactBasics.Farm)
    (h : props.«show».getD true = true) :
    ReactBasics.render props farms =
      some (farms.map (fun farm => ReactBasics.Node.p farm.name) ++
        [ReactBasics.Node.p (ReactBasics.getFooterText props.footerText)]) ∧
    ∀ farms' : List ReactBasics.Farm,
      farms.map ReactBasics.Farm.name = farms'.map ReactBasics.Farm.name →
      ReactBasics.render props farms = ReactBasics.render props farms' := by
  have e : ∀ l : List ReactBasics.Farm,
      l.map (fun farm => ReactBasics.Node.p farm.name) =
        (l.map ReactBasics.Farm.name).map ReactBasics.Node.p := by
    intro l; rw [List.map_map]; rfl
  refine ⟨render_of_shown props farms h, ?_⟩
  intro farms' hn
  rw [render_of_shown props farms h, render_of_shown props farms' h, e farms,
    e farms', hn]

/-- C7 witness: two farms render as two name paragraphs in order, with the
ids and a location ignored. -/
theorem farm_paragraphs_spec_witness :
    ReactBasics.render ⟨"l", "u", none, some true⟩
        [⟨"a", 1, none⟩, ⟨"b", 2, some "loc"⟩] =
      some [ReactBasics.Node.p "a", ReactBasics.Node.p "b",
        ReactBasics.Node.p "no footer"] ∧
    ReactBasics.render ⟨"l", "u", none, some true⟩
        [⟨"a", 1, none⟩, ⟨"b", 2, some "loc"⟩] =
      ReactBasics.render ⟨"l", "u", none, some true⟩
        [⟨"a", 9, some "elsewhere"⟩, ⟨"b", 0, none⟩] :=
  ⟨(farm_paragraphs_spec ⟨"l", "u", none, some true⟩
      [⟨"a", 1, none⟩, ⟨"b", 2, some "loc"⟩] rfl).1,
   (farm_paragraphs_spec ⟨"l", "u", none, some true⟩
      [⟨"a", 1, none⟩, ⟨"b", 2, some "loc"⟩] rfl).2
     [⟨"a", 9, some "elsewhere"⟩, ⟨"b", 0, none⟩] rfl⟩

/-- C8 counterexample: with `show` omitted, a label that occurs nowhere else
is absent from the rendered output — the component never renders the `label`
prop (it is not even destructured). -/
theorem label_unused_cex :
    ReactBasics.render ⟨"THE LABEL", "u", some "x", none⟩ [] =
      some [ReactBasics.Node.p "x"] ∧
    ([ReactBasics.Node.p "x"].count (ReactBasics.Node.p "THE LABEL")) = 0 :=
  ⟨rfl, by decide⟩

/-- C8 amended: the rendered output of MyFunctionComponent never includes or
depends on the `label` prop: two props values differing only in `label`
render identically (the output is the farm paragraphs and the footer only). -/
theorem render_ignores_label (la lb url : String) (ft : Option String)
    (sh : Option Bool) (farms : List ReactBasics.Farm) :
    ReactBasics.render ⟨la, url, ft, sh⟩ farms =
      ReactBasics.render ⟨lb, url, ft, sh⟩ farms := rfl

/-- C9: the `farms` state is always a defined list and never `undefined`:
it starts as the empty list, and after any sequence of effect-driven updates
it is still a defined list; in particular the value `fetchImportantData`
stores is a defined list whatever the remote call resolves to, because of the
nullish-coalescing guard. -/
theorem farms_never_undefined (updates : List ReactBasics.FarmsUpdate) :
    ReactBasics.isList (ReactBasics.runUpdates updates) = true ∧
    ∀ callResult : Option (List ReactBasics.Farm),
      ReactBasics.isList (ReactBasics.fetchImportantDataVal callResult) = true := by
  refine ⟨isList_foldl updates (.list ReactBasics.initialFarms) rfl, ?_⟩
  intro callResult
  cases callResult <;> rfl

/-- C10: the two copies of the component agree on the specified contract:
their `getFooterText` functions return equal strings on every input, and the
two renders return `null` for exactly the same props (and, on every input,
the same footer paragraph text appears as the last node of both outputs). -/
theorem copies_equivalent (ft : Option String) (props : ReactBasics.Props)
    (farms : List ReactBasics.Farm) :
    ReactBasics.getFooterText ft = Part000.getFooterText ft ∧
    (ReactBasics.render props farms = none ↔ Part000.render props farms = none) := by
  constructor
  · cases ft with
    | none => rfl
    | some s =>
      simp only [ReactBasics.getFooterText, Part000.getFooterText,
        ReactBasics.isNonEmptyString, Part000.isNonEmptyString]
  · cases hb : props.«show».getD true <;>
      simp [ReactBasics.render, Part000.render, hb]

/-- C10 witness: both copies agree at a concrete footer and concrete props
with `show = false`. -/
theorem copies_equivalent_witness :
    ReactBasics.getFooterText (some "") = Part000.getFooterText (some "") ∧
    (ReactBasics.render ⟨"l", "u", none, some false⟩ [] = none ↔
      Part000.render ⟨"l", "u", none, some false⟩ [] = none) :=
  copies_equivalent (some "") ⟨"l", "u", none, some false⟩ []
